import Mathlib

/-!
Verification of the Deployment-Watcher repository (src/main.py) against its
natural-language specification. The Python source is shallowly embedded:
external command executions are a parameter (an environment mapping the index
of each spawn to its captured result), the retry while-loop becomes a
fuel-bounded recursion whose fuel only limits loop iterations, and the main
loop exception handling becomes a pure step function on the cycle outcome.
-/

set_option maxRecDepth 4000

namespace DeploymentWatcher

/-- Embedding of the Python dataclass Task (src/main.py lines 23-27): a
command argument list plus optional expected-output and retry-output
substring lists, both Optional in Python, hence Option here. -/
structure Task where
  command : List String
  expected_output : Option (List String)
  retry_output : Option (List String)
deriving Repr, DecidableEq

/-- The captured result of one external process execution, the fields of the
subprocess CompletedProcess that src/main.py reads: returncode, stdout and
stderr. -/
structure CommandResult where
  returncode : Int
  stdout : String
  stderr : String
deriving Repr, DecidableEq

/-- Character-list helper: hay starts with pat. -/
def listStarts : List Char → List Char → Bool
  | _, [] => true
  | [], _ :: _ => false
  | h :: hs, p :: ps => h == p && listStarts hs ps

/-- Character-list helper: pat occurs contiguously somewhere in hay. -/
def listHasSub : List Char → List Char → Bool
  | [], pat => pat.isEmpty
  | h :: hs, pat => listStarts (h :: hs) pat || listHasSub hs pat

/-- Python substring membership, pat in hay. -/
def strContains (hay pat : String) : Bool :=
  listHasSub hay.data pat.data

/-- The ASCII whitespace characters that Python str.strip and str.split
treat as whitespace. -/
def isWs (c : Char) : Bool :=
  c == ' ' || c == '\t' || c == '\n' || c == '\r' || c.toNat == 11 || c.toNat == 12

/-- Python str.strip with no argument: leading and trailing whitespace
removed. -/
def pyStrip (s : String) : String :=
  (((s.data.dropWhile isWs).reverse.dropWhile isWs).reverse).asString

/-- Accumulator pass of Python str.split with no argument: splits on
whitespace runs, dropping empty fragments. -/
def splitWsAux : List Char → List Char → List (List Char)
  | [], acc => if acc.isEmpty then [] else [acc.reverse]
  | c :: cs, acc =>
    if isWs c then
      if acc.isEmpty then splitWsAux cs []
      else acc.reverse :: splitWsAux cs []
    else splitWsAux cs (c :: acc)

/-- Python str.split with no argument. -/
def pySplitWs (s : String) : List String :=
  (splitWsAux s.data []).map List.asString

/-- Python truthiness of an Optional list: not None and non-empty. -/
def optListTruthy : Option (List String) → Bool
  | none => false
  | some l => !l.isEmpty

/-- Python truthiness of a string: non-empty. -/
def truthyStr (s : String) : Bool :=
  !(s == "")

/-- Truthiness of the Python filter used in retry, the comprehension that
keeps the substrings occurring in the stripped stdout: some element of l
occurs in hay. -/
def anyIn (l : List String) (hay : String) : Bool :=
  l.any (fun s => strContains hay s)

/-- Simplified rendering of a Python string list inside f-string messages. -/
def pyListRepr (l : List String) : String :=
  "[" ++ String.intercalate ", " l ++ "]"

/-- Message of the CalledProcessError that subprocess.run raises under
check=True for a nonzero exit status (src/main.py line 98). -/
def calledProcessErrorMsg (command : List String) (code : Int) : String :=
  "Command " ++ pyListRepr command ++ " returned non-zero exit status "
    ++ toString code ++ "."

/-- Message of the ValueError raised in retry on an expected-output mismatch
(src/main.py line 74). -/
def mismatchMsg (task : Task) (out : CommandResult) : String :=
  "Output validation failed due to missmatch in contains that was expected: "
    ++ pyListRepr (task.expected_output.getD []) ++ " Output: " ++ out.stdout

/-- Message of the ValueError raised in retry on a nonzero return code
(src/main.py line 76); unreachable behind run_command with check=True. -/
def retcodeMsg (code : Int) : String :=
  "Output return code failed, return code: " ++ toString code

/-- Message of the RuntimeError raised by retry after exhausting attempts
(src/main.py line 85). -/
def runtimeErrorMsg (command : List String) (maxAttempts : Int) : String :=
  pyListRepr command ++ " failed after " ++ toString maxAttempts ++ " attempts"

/-- Embedding of run_command (src/main.py lines 91-102): the closure runs
subprocess.run with check=True, so a nonzero exit status raises
CalledProcessError instead of returning the captured result. The outcome of
the external process is the parameter r; this function decides, exactly as
check=True does, whether r is returned or raised. -/
def run_command (command : List String) (r : CommandResult) : Except String CommandResult :=
  if r.returncode = 0 then Except.ok r
  else Except.error (calledProcessErrorMsg command r.returncode)

/-- The attempt outcome distinguished by the body of the retry loop. -/
inductive Outcome where
  | success
  | retryNoChange
  | failure (reason : String)
deriving Repr, DecidableEq

/-- Classification performed by one iteration of the retry loop body
(src/main.py lines 69-78) on the outcome of func(): an exception raised by
func() is a failure caught by the handler; otherwise the retry-output check,
the expected-output check and the return-code check run in this order, the
first two on the stripped stdout. -/
def classify (task : Task) (call : Except String CommandResult) : Outcome :=
  match call with
  | Except.error e => Outcome.failure e
  | Except.ok out =>
    if optListTruthy task.retry_output
        && anyIn (task.retry_output.getD []) (pyStrip out.stdout) then
      Outcome.retryNoChange
    else if optListTruthy task.expected_output
        && !anyIn (task.expected_output.getD []) (pyStrip out.stdout) then
      Outcome.failure (mismatchMsg task out)
    else if out.returncode != 0 then
      Outcome.failure (retcodeMsg out.returncode)
    else
      Outcome.success

/-- Observable trace of one retry call: how many times func() ran, one
external command execution each, and every time.sleep duration in order. -/
structure RetryTrace where
  execs : Nat
  sleeps : List Int
deriving Repr, DecidableEq

/-- Result of a fuel-bounded run of the retry loop: normal return, the
RuntimeError message after exhausting attempts, or fuel exhausted while the
loop was still going; the loop genuinely runs forever on repeated
retry-output matches, which no fuel completes. -/
inductive RetryResult where
  | ok (trace : RetryTrace)
  | err (msg : String) (trace : RetryTrace)
  | diverge
deriving Repr, DecidableEq

/-- One-for-one embedding of the while loop of retry (src/main.py lines
65-85). attempts is the Python counter, an Int as Python ints are unbounded
and the caller may pass any max_attempts; execs counts func() calls; sleeps
records each time.sleep. A success returns at once; a retry-output match
sleeps the polling interval and loops with attempts unchanged; a failure
increments attempts and sleeps base_delay to the power attempts, the sleep
happening even when the incremented counter already equals max_attempts.
Fuel bounds loop iterations only: the loop guard and the final RuntimeError
consume none. -/
def retryAux (task : Task) (maxAttempts baseDelay interval : Int)
    (env : Nat → CommandResult) :
    Nat → Int → Nat → List Int → RetryResult
  | 0, attempts, execs, sleeps =>
    if attempts < maxAttempts then RetryResult.diverge
    else RetryResult.err (runtimeErrorMsg task.command maxAttempts) ⟨execs, sleeps⟩
  | fuel + 1, attempts, execs, sleeps =>
    if attempts < maxAttempts then
      match classify task (run_command task.command (env execs)) with
      | Outcome.success => RetryResult.ok ⟨execs + 1, sleeps⟩
      | Outcome.retryNoChange =>
        retryAux task maxAttempts baseDelay interval env fuel attempts (execs + 1)
          (sleeps ++ [interval])
      | Outcome.failure _ =>
        retryAux task maxAttempts baseDelay interval env fuel (attempts + 1) (execs + 1)
          (sleeps ++ [baseDelay ^ (attempts + 1).toNat])
    else RetryResult.err (runtimeErrorMsg task.command maxAttempts) ⟨execs, sleeps⟩

/-- Entry point of retry: the attempt counter starts at 0 with no executions
and no sleeps performed yet. -/
def retry (task : Task) (maxAttempts baseDelay interval : Int)
    (env : Nat → CommandResult) (fuel : Nat) : RetryResult :=
  retryAux task maxAttempts baseDelay interval env fuel 0 0 []

/-- Outcome of one pass over the task chain inside the while body of main. -/
inductive ChainResult where
  | ok
  | err (msg : String)
  | diverge
deriving Repr, DecidableEq

/-- Embedding of the for loop of main (src/main.py lines 182-186): tasks run
in declaration order, each through retry; the first RuntimeError aborts the
remaining tasks. Each task comes paired with its environment of command
results; the returned list holds the trace of every task that was started. -/
def runTasks (maxAttempts baseDelay interval : Int) (fuel : Nat) :
    List (Task × (Nat → CommandResult)) → ChainResult × List RetryTrace
  | [] => (ChainResult.ok, [])
  | (t, env) :: rest =>
    match retry t maxAttempts baseDelay interval env fuel with
    | RetryResult.ok tr =>
      let p := runTasks maxAttempts baseDelay interval fuel rest
      (p.1, tr :: p.2)
    | RetryResult.err m tr => (ChainResult.err m, [tr])
    | RetryResult.diverge => (ChainResult.diverge, [])

/-- What the body of one while-iteration of main observes: the chain
succeeded, a RuntimeError propagated from retry, or some other exception
escaped the chain. -/
inductive CycleOutcome where
  | success
  | runtimeError (msg : String)
  | otherError (msg : String)
deriving Repr, DecidableEq

/-- Effect of one while-iteration of main on the process: either the loop
continues into time.sleep(interval) carrying the new consecutive_failures
value and whether send_email ran, or an uncaught RuntimeError terminates the
process with nonzero status, recording whether send_email ran first. -/
inductive CycleEffect where
  | next (consecutiveFailures : Int) (emailSent : Bool)
  | crash (msg : String) (emailSent : Bool)
deriving Repr, DecidableEq

/-- One-for-one embedding of the exception handling of the main loop
(src/main.py lines 177-206): a successful chain resets consecutive_failures
to 0; a RuntimeError is logged, emailed when a recipient is set, and
re-raised, terminating the process; any other exception increments
consecutive_failures, and when the counter reaches max_attempts an email is
sent if a recipient is set and the process raises only when
exit_on_max_attempts is set; the counter is never reset on this branch. -/
def cycleStep (maxAttempts : Int) (emailRecipient : String)
    (exitOnMaxAttempts : Bool) (consecutiveFailures : Int) :
    CycleOutcome → CycleEffect
  | CycleOutcome.success => CycleEffect.next 0 false
  | CycleOutcome.runtimeError msg =>
    CycleEffect.crash msg (truthyStr emailRecipient)
  | CycleOutcome.otherError _ =>
    let cf := consecutiveFailures + 1
    if maxAttempts ≤ cf then
      if exitOnMaxAttempts then
        CycleEffect.crash "Max attempts reached." (truthyStr emailRecipient)
      else CycleEffect.next cf (truthyStr emailRecipient)
    else CycleEffect.next cf false

/-- The recognized configuration options of main (src/main.py lines 137-144). -/
structure Config where
  repoDir : String
  interval : Int
  logFile : String
  errorEmailRecipient : String
  errorEmailSender : String
  exitOnMaxAttempts : Bool
  maxAttempts : Int
  baseDelay : Int
deriving Repr, DecidableEq

/-- Whether main aborts before entering the while loop (src/main.py lines
151-173): after argparse succeeds, the only pre-loop abort is the log file
handler setup failing; no numeric option, base_delay included, is ever
inspected, so the configuration itself is irrelevant. -/
def startupAborts (_cfg : Config) (logFileWritable : Bool) : Bool :=
  !logFileWritable

/-- The built-in default task chain (src/main.py lines 169-173), exactly as
constructed when no task arguments are given: each command is a one-element
list holding the whole command line. -/
def defaultTasks : List Task :=
  [⟨["git pull origin main"], some ["files changed"], some ["Already up to date."]⟩,
   ⟨["docker compose build"], none, none⟩,
   ⟨["docker compose --profile prod up -d"], some [""], none⟩]

/-- The branch of StoreTaskAction handling a command argument (src/main.py
lines 45-50): the single command string is whitespace-split into an argument
list, empty fragments dropped as Python split does. -/
def storeCmdTask (commandString : String) : Task :=
  ⟨pySplitWs commandString, none, none⟩

/-- A task whose command is a one-element list whose sole element still
contains a space: a single opaque command line rather than split argument
tokens. -/
def isOpaqueSingleton (t : Task) : Bool :=
  t.command.length == 1 && (t.command.headD "").data.any (fun c => c == ' ')

/-- Environment in which every execution exits 1 while printing the default
retry marker. -/
def envUpToDateFail : Nat → CommandResult :=
  fun _ => ⟨1, "Already up to date.", ""⟩

/-- Environment in which every execution exits 0 printing the retry marker. -/
def envUpToDateOk : Nat → CommandResult :=
  fun _ => ⟨0, "Already up to date.", ""⟩

/-- Environment in which every execution exits with status 7, silent. -/
def envFail7 : Nat → CommandResult :=
  fun _ => ⟨7, "", ""⟩

/-- Environment in which every execution exits with status 1, silent. -/
def envFail1 : Nat → CommandResult :=
  fun _ => ⟨1, "", ""⟩

/-- Environment in which every execution succeeds silently. -/
def envOk : Nat → CommandResult :=
  fun _ => ⟨0, "", ""⟩

/-- A task with only a retry substring configured. -/
def taskRetryMarker : Task :=
  ⟨["git"], none, some ["Already up to date."]⟩

/-- A plain task with no substrings configured. -/
def taskX : Task :=
  ⟨["x"], none, none⟩

/-- The scenario chain of the specification: A always failing, then B, C. -/
def taskA : Task := ⟨["a"], none, none⟩

/-- Task B of the scenario chain. -/
def taskB : Task := ⟨["b"], none, none⟩

/-- Task C of the scenario chain. -/
def taskC : Task := ⟨["c"], none, none⟩

/-- The scenario chain paired with environments: A fails on every execution,
B and C would succeed. -/
def scenarioChain : List (Task × (Nat → CommandResult)) :=
  [(taskA, envFail1), (taskB, envOk), (taskC, envOk)]

/-- A configuration with base_delay 1, below the bound claimed by the spec. -/
def cfgSmallDelay : Config :=
  ⟨"./app", 60, "error.log", "", "", false, 5, 1⟩

/-- Helper: when every execution classifies as a failure, each loop iteration
consumes exactly one attempt slot and one backoff sleep, so starting from any
counter value the loop runs exactly the remaining number of attempts, one
execution each, then returns the RuntimeError message. -/
theorem retryAux_allfail (task : Task) (maxA b i : Int) (env : Nat → CommandResult)
    (hfail : ∀ k, ∃ r, classify task (run_command task.command (env k)) = Outcome.failure r) :
    ∀ (fuel : Nat) (attempts : Int) (execs : Nat) (sleeps : List Int),
      attempts + (fuel : Int) = maxA →
      ∃ sl, retryAux task maxA b i env fuel attempts execs sleeps =
        RetryResult.err (runtimeErrorMsg task.command maxA) ⟨execs + fuel, sl⟩ := by
  intro fuel
  induction fuel with
  | zero =>
    intro attempts execs sleeps hsum
    have hnlt : ¬ attempts < maxA := by push_cast at hsum; omega
    refine ⟨sleeps, ?_⟩
    simp only [retryAux]
    rw [if_neg hnlt, Nat.add_zero]
  | succ f ih =>
    intro attempts execs sleeps hsum
    have hlt : attempts < maxA := by push_cast at hsum; omega
    obtain ⟨r, hr⟩ := hfail execs
    obtain ⟨sl, hsl⟩ := ih (attempts + 1) (execs + 1)
      (sleeps ++ [b ^ (attempts + 1).toNat]) (by push_cast at hsum ⊢; omega)
    refine ⟨sl, ?_⟩
    rw [show execs + 1 + f = execs + (f + 1) from by omega] at hsl
    simp only [retryAux]
    rw [if_pos hlt, hr]
    exact hsl

/-- Helper: for a positive max_attempts and an always-failing task, running
retry with fuel max_attempts ends in the terminal error after exactly
max_attempts executions. -/
theorem retry_allfail_exact (task : Task) (maxA b i : Int) (env : Nat → CommandResult)
    (hm : 0 < maxA)
    (hfail : ∀ k, ∃ r, classify task (run_command task.command (env k)) = Outcome.failure r) :
    ∃ sl, retry task maxA b i env maxA.toNat =
      RetryResult.err (runtimeErrorMsg task.command maxA) ⟨maxA.toNat, sl⟩ := by
  have hcast : ((maxA.toNat : Nat) : Int) = maxA := Int.toNat_of_nonneg (by omega)
  obtain ⟨sl, hsl⟩ := retryAux_allfail task maxA b i env hfail maxA.toNat 0 0 []
    (by rw [hcast]; ring)
  refine ⟨sl, ?_⟩
  unfold retry
  rw [hsl]
  simp

/-- Helper: when every execution classifies as RetryableNoChange and the
loop guard holds, the loop never leaves its body: every amount of fuel is
exhausted. -/
theorem retryAux_allnochange (task : Task) (maxA b i : Int) (env : Nat → CommandResult)
    (hnc : ∀ k, classify task (run_command task.command (env k)) = Outcome.retryNoChange) :
    ∀ (fuel : Nat) (attempts : Int) (execs : Nat) (sleeps : List Int),
      attempts < maxA →
      retryAux task maxA b i env fuel attempts execs sleeps = RetryResult.diverge := by
  intro fuel
  induction fuel with
  | zero =>
    intro attempts execs sleeps hlt
    simp only [retryAux]
    rw [if_pos hlt]
  | succ f ih =>
    intro attempts execs sleeps hlt
    simp only [retryAux]
    rw [if_pos hlt, hnc execs]
    exact ih attempts (execs + 1) (sleeps ++ [i]) hlt

/-- Claim C1, counterexample: with the configured retry substring present in
stdout but a nonzero exit status, run_command with check=True raises before
the retry-output check can run; with max_attempts 1 the single attempt slot
is consumed, one backoff sleep of base_delay happens instead of a
polling-interval sleep, and the call ends in the terminal RuntimeError
instead of being classified RetryableNoChange. -/
theorem c1_retry_substring_nonzero_exit_cex :
    strContains (pyStrip (envUpToDateFail 0).stdout) "Already up to date." = true ∧
    (envUpToDateFail 0).returncode ≠ 0 ∧
    classify taskRetryMarker (run_command taskRetryMarker.command (envUpToDateFail 0)) =
      Outcome.failure (calledProcessErrorMsg ["git"] 1) ∧
    retry taskRetryMarker 1 2 60 envUpToDateFail 1 =
      RetryResult.err (runtimeErrorMsg ["git"] 1) ⟨1, [2]⟩ := by
  decide

/-- Claim C1, amended: when the command exits with status 0, the retry-output
check runs first and takes precedence over the expected-output check and the
dead exit-code check, so the execution classifies as RetryableNoChange and
the engine sleeps one polling interval and loops again with the attempt
counter unchanged; a nonzero exit never reaches this check because
run_command raises under check=True. -/
theorem c1_retry_substring_zero_exit_precedence
    (task : Task) (maxA b i : Int) (env : Nat → CommandResult)
    (fuel execs : Nat) (attempts : Int) (sleeps : List Int)
    (hrc : (env execs).returncode = 0)
    (hro : optListTruthy task.retry_output = true)
    (hmatch : anyIn (task.retry_output.getD []) (pyStrip (env execs).stdout) = true)
    (hlt : attempts < maxA) :
    classify task (run_command task.command (env execs)) = Outcome.retryNoChange ∧
    retryAux task maxA b i env (fuel + 1) attempts execs sleeps =
      retryAux task maxA b i env fuel attempts (execs + 1) (sleeps ++ [i]) := by
  have hrun : run_command task.command (env execs) = Except.ok (env execs) := by
    unfold run_command
    rw [if_pos hrc]
  have hclass : classify task (run_command task.command (env execs)) =
      Outcome.retryNoChange := by
    rw [hrun]
    simp [classify, hro, hmatch]
  refine ⟨hclass, ?_⟩
  simp only [retryAux]
  rw [if_pos hlt, hclass]

/-- Witness for c1_retry_substring_zero_exit_precedence: a task that declares
both an unmatched expected substring and the matched retry marker, run on a
zero-exit execution, classifies RetryableNoChange and sleeps the interval. -/
theorem c1_witness :
    classify ⟨["git"], some ["nope"], some ["Already up to date."]⟩
      (run_command (Task.command ⟨["git"], some ["nope"], some ["Already up to date."]⟩)
        (envUpToDateOk 0)) = Outcome.retryNoChange ∧
    retryAux ⟨["git"], some ["nope"], some ["Already up to date."]⟩ 5 2 60 envUpToDateOk
        (2 + 1) 0 0 [] =
      retryAux ⟨["git"], some ["nope"], some ["Already up to date."]⟩ 5 2 60 envUpToDateOk
        2 0 (0 + 1) ([] ++ [60]) :=
  c1_retry_substring_zero_exit_precedence
    ⟨["git"], some ["nope"], some ["Already up to date."]⟩ 5 2 60 envUpToDateOk 2 0 0 []
    (by decide) (by decide) (by decide) (by decide)

/-- Claim C2, code bug: a RuntimeError from retry, the terminal task failure,
is caught by the dedicated handler in main, which logs, emails when a
recipient is set, and unconditionally re-raises, so the process crashes on
every terminal task failure; the Cycle Failure Counter is never incremented
on this path and exit_on_max_attempts and the threshold are never consulted. -/
theorem c2_terminal_failure_crashes_process
    (maxA : Int) (recip : String) (exitB : Bool) (cf : Int) (msg : String) :
    cycleStep maxA recip exitB cf (CycleOutcome.runtimeError msg) =
      CycleEffect.crash msg (truthyStr recip) := rfl

/-- Claim C3, counterexample: with max_attempts 3, a recipient set and
exit_on_max_attempts unset, a cycle failure taking the counter from 2 to the
threshold 3 sends the notification but leaves the counter at 3, not 0: the
counter is not reset after a notification at threshold. -/
theorem c3_counter_not_reset_after_notification_cex :
    cycleStep 3 "ops@example.com" false 2 (CycleOutcome.otherError "boom") =
      CycleEffect.next 3 true ∧ (3 : Int) ≠ 0 := by
  decide

/-- Claim C3, amended: the counter resets to 0 after every fully successful
cycle; after a threshold notification with exit_on_max_attempts unset it is
not reset but keeps its incremented value, so every following failing cycle
starts at or above the threshold. -/
theorem c3_counter_reset_rules
    (maxA : Int) (recip : String) (exitB : Bool) (cf : Int) (msg : String)
    (hthr : maxA ≤ cf + 1) :
    cycleStep maxA recip exitB cf CycleOutcome.success = CycleEffect.next 0 false ∧
    cycleStep maxA recip false cf (CycleOutcome.otherError msg) =
      CycleEffect.next (cf + 1) (truthyStr recip) := by
  refine ⟨rfl, ?_⟩
  simp only [cycleStep]
  rw [if_pos hthr]
  rfl

/-- Witness for c3_counter_reset_rules at max_attempts 3 and counter 2. -/
theorem c3_witness :
    cycleStep 3 "ops@example.com" true 2 CycleOutcome.success = CycleEffect.next 0 false ∧
    cycleStep 3 "ops@example.com" false 2 (CycleOutcome.otherError "boom") =
      CycleEffect.next (2 + 1) (truthyStr "ops@example.com") :=
  c3_counter_reset_rules 3 "ops@example.com" true 2 "boom" (by decide)

/-- Claim C4, counterexample: a task failing twice with exit status 7
exhausts max_attempts 2; the last failure reason is the CalledProcessError
message mentioning status 7, but the terminal RuntimeError message does not
contain it, so the terminal failure names the task and the attempt count but
does not carry the last failure reason. -/
theorem c4_terminal_message_lacks_reason_cex :
    classify taskX (run_command taskX.command (envFail7 0)) =
      Outcome.failure (calledProcessErrorMsg ["x"] 7) ∧
    retry taskX 2 2 60 envFail7 2 =
      RetryResult.err (runtimeErrorMsg ["x"] 2) ⟨2, [2, 4]⟩ ∧
    strContains (runtimeErrorMsg ["x"] 2) (calledProcessErrorMsg ["x"] 7) = false := by
  decide

/-- Claim C4, amended: for max_attempts at least 1 and a task whose every
execution yields a Failure outcome, retry performs exactly max_attempts
executions of the command and then raises a terminal RuntimeError whose
message names the task command and the attempt count; the last failure
reason is logged per attempt but not carried in the terminal error. -/
theorem c4_exact_attempts_terminal (task : Task) (maxA b i : Int)
    (env : Nat → CommandResult) (hm : 1 ≤ maxA)
    (hfail : ∀ k, ∃ r, classify task (run_command task.command (env k)) = Outcome.failure r) :
    ∃ sl, retry task maxA b i env maxA.toNat =
      RetryResult.err (runtimeErrorMsg task.command maxA) ⟨maxA.toNat, sl⟩ :=
  retry_allfail_exact task maxA b i env (by omega) hfail

/-- Witness for c4_exact_attempts_terminal: a silent exit-7 task with
max_attempts 2 runs exactly twice then returns the terminal message. -/
theorem c4_witness :
    ∃ sl, retry taskX 2 2 60 envFail7 (Int.toNat 2) =
      RetryResult.err (runtimeErrorMsg taskX.command 2) ⟨Int.toNat 2, sl⟩ :=
  c4_exact_attempts_terminal taskX 2 2 60 envFail7 (by decide)
    (fun _ => ⟨calledProcessErrorMsg ["x"] 7, rfl⟩)

/-- Claim C5, counterexample: for a nonzero exit status the Command Runner
does not return the captured result; run_command invokes subprocess.run with
check=True, so exit status 3 raises CalledProcessError. -/
theorem c5_nonzero_exit_raises_cex :
    run_command ["x"] ⟨3, "out", "err"⟩ =
      Except.error (calledProcessErrorMsg ["x"] 3) := rfl

/-- Claim C5, amended: run_command returns the captured result exactly when
the exit status is 0; for a nonzero status the check=True call raises
CalledProcessError, so nonzero exits reach the classifier only as the raised
exception, which it turns into a Failure carrying the runner message, and
the dedicated exit-code branch of the classifier is dead. -/
theorem c5_run_command_check (command : List String) (r : CommandResult)
    (hnz : r.returncode ≠ 0) :
    run_command command r = Except.error (calledProcessErrorMsg command r.returncode) ∧
    ∀ (task : Task),
      classify task (run_command command r) =
        Outcome.failure (calledProcessErrorMsg command r.returncode) := by
  have h : run_command command r =
      Except.error (calledProcessErrorMsg command r.returncode) := by
    unfold run_command
    rw [if_neg hnz]
  exact ⟨h, fun task => by rw [h]; rfl⟩

/-- Witness for c5_run_command_check at exit status 3. -/
theorem c5_witness :
    run_command ["x"] ⟨3, "out", "err"⟩ =
      Except.error (calledProcessErrorMsg ["x"] 3) ∧
    ∀ (task : Task),
      classify task (run_command ["x"] ⟨3, "out", "err"⟩) =
        Outcome.failure (calledProcessErrorMsg ["x"] 3) :=
  c5_run_command_check ["x"] ⟨3, "out", "err"⟩ (by decide)

/-- Claim C6, counterexample: in the scenario chain the always-failing task A
is attempted 3 times but the recorded sleeps are 2, 4 and 8 seconds, 14 in
total, because the engine also sleeps base_delay cubed after the third
failure before raising, not 2 then 4 for about 6 seconds; and the terminal
RuntimeError then crashes the process, so the Cycle Failure Counter never
becomes 1. -/
theorem c6_scenario_cex :
    runTasks 3 2 60 3 scenarioChain =
      (ChainResult.err (runtimeErrorMsg ["a"] 3), [⟨3, [2, 4, 8]⟩]) ∧
    ([2, 4, 8] : List Int) ≠ [2, 4] ∧
    ([2, 4, 8] : List Int).sum = 14 ∧
    cycleStep 3 "" false 0 (CycleOutcome.runtimeError (runtimeErrorMsg ["a"] 3)) =
      CycleEffect.crash (runtimeErrorMsg ["a"] 3) false := by
  decide

/-- Claim C6, amended: task A is executed exactly 3 times with sleeps of 2, 4
and 8 seconds, 14 seconds in total including a final backoff sleep after the
last failed attempt; the cycle aborts with the terminal error of A before B
or C start, only one trace being recorded; and the re-raised RuntimeError
terminates the process instead of setting the Cycle Failure Counter to 1. -/
theorem c6_scenario_amended :
    (runTasks 3 2 60 3 scenarioChain).1 = ChainResult.err (runtimeErrorMsg ["a"] 3) ∧
    (runTasks 3 2 60 3 scenarioChain).2 = [⟨3, [2, 4, 8]⟩] ∧
    (runTasks 3 2 60 3 scenarioChain).2.length = 1 ∧
    cycleStep 3 "" false 0 (CycleOutcome.runtimeError (runtimeErrorMsg ["a"] 3)) =
      CycleEffect.crash (runtimeErrorMsg ["a"] 3) false := by
  decide

/-- Claim C7, counterexample: a configuration with base_delay 1, below 2, and
a writable log file is not rejected at startup; main performs no validation
of base_delay, so the polling loop is entered. -/
theorem c7_base_delay_not_validated_cex :
    cfgSmallDelay.baseDelay < 2 ∧ startupAborts cfgSmallDelay true = false := by
  decide

/-- Claim C7, amended: startup never aborts because of base_delay; with a
writable log file main reaches the loop for every configuration, and with
base_delay 1 the backoff degenerates to a constant delay of 1 second rather
than a genuinely increasing one, as two consecutive failures both sleep 1. -/
theorem c7_startup_accepts_any_base_delay (cfg : Config) :
    startupAborts cfg true = false ∧
    retry taskX 2 1 60 envFail7 2 =
      RetryResult.err (runtimeErrorMsg ["x"] 2) ⟨2, [1, 1]⟩ :=
  ⟨rfl, by decide⟩

/-- Claim C8, code bug: every task of the built-in default chain stores its
whole command line as a one-element list holding a single opaque string with
spaces, while the path for a command given on the command line splits its
string into argument tokens; the default tasks therefore violate the
token-list invariant, and as program names containing spaces they can never
execute successfully. -/
theorem c8_default_tasks_are_opaque_strings :
    defaultTasks.all isOpaqueSingleton = true ∧
    defaultTasks.map Task.command =
      [["git pull origin main"], ["docker compose build"],
       ["docker compose --profile prod up -d"]] ∧
    (storeCmdTask "git pull origin main").command = ["git", "pull", "origin", "main"] ∧
    ((storeCmdTask "git pull origin main").command.all
      (fun s => !s.data.any (fun c => c == ' '))) = true := by
  decide

/-- Claim C9: on any run in which every execution yields a Failure outcome
the retry loop terminates, returning the terminal error after exactly the
remaining attempts, while on a run in which every execution yields
RetryableNoChange it never terminates: no amount of fuel completes it. -/
theorem c9_failure_terminates_nochange_diverges
    (taskF taskN : Task) (maxA b i : Int)
    (envF envN : Nat → CommandResult)
    (hfail : ∀ k, ∃ r, classify taskF (run_command taskF.command (envF k)) = Outcome.failure r)
    (hnc : ∀ k, classify taskN (run_command taskN.command (envN k)) = Outcome.retryNoChange)
    (hm : 0 < maxA) :
    (∃ sl, retry taskF maxA b i envF maxA.toNat =
      RetryResult.err (runtimeErrorMsg taskF.command maxA) ⟨maxA.toNat, sl⟩) ∧
    (∀ fuel, retry taskN maxA b i envN fuel = RetryResult.diverge) := by
  constructor
  · exact retry_allfail_exact taskF maxA b i envF hm hfail
  · intro fuel
    exact retryAux_allnochange taskN maxA b i envN hnc fuel 0 0 [] hm

/-- Witness for c9_failure_terminates_nochange_diverges: the silent exit-7
task terminates after 2 attempts while the retry-marker task on zero-exit
executions exhausts every fuel. -/
theorem c9_witness :
    (∃ sl, retry taskX 2 2 60 envFail7 (Int.toNat 2) =
      RetryResult.err (runtimeErrorMsg taskX.command 2) ⟨Int.toNat 2, sl⟩) ∧
    (∀ fuel, retry taskRetryMarker 2 2 60 envUpToDateOk fuel = RetryResult.diverge) :=
  c9_failure_terminates_nochange_diverges taskX taskRetryMarker 2 2 60 envFail7 envUpToDateOk
    (fun _ => ⟨calledProcessErrorMsg ["x"] 7, rfl⟩) (fun _ => rfl) (by decide)

/-- Claim C10: with max_attempts at most 0 the while guard fails immediately,
so retry raises the terminal RuntimeError at once with zero executions of the
command and no sleeps, whatever the fuel. -/
theorem c10_nonpositive_max_attempts_immediate
    (task : Task) (maxA b i : Int) (env : Nat → CommandResult) (fuel : Nat)
    (hm : maxA ≤ 0) :
    retry task maxA b i env fuel =
      RetryResult.err (runtimeErrorMsg task.command maxA) ⟨0, []⟩ := by
  have hnlt : ¬ ((0 : Int) < maxA) := by omega
  cases fuel with
  | zero =>
    unfold retry
    simp only [retryAux]
    rw [if_neg hnlt]
  | succ f =>
    unfold retry
    simp only [retryAux]
    rw [if_neg hnlt]

/-- Witness for c10_nonpositive_max_attempts_immediate: a task that would
succeed is never even executed when max_attempts is 0. -/
theorem c10_witness :
    retry taskX 0 2 60 envOk 5 =
      RetryResult.err (runtimeErrorMsg taskX.command 0) ⟨0, []⟩ :=
  c10_nonpositive_max_attempts_immediate taskX 0 2 60 envOk 5 (by decide)

end DeploymentWatcher
